import Mathlib

/-!
Shallow embedding of the credential-resolution and provider layer of the
ai-cli repository (src/ai_cli).  Python strings are Lean `String`s, Python
dicts are association lists, the platform keyring and the process
environment are functions supplied as parameters, and Python exceptions are
`Except` errors of an explicit error-kind inductive.
-/

namespace AiCli

/-! ### config.py -/

/-- Python value `DEFAULT_PROVIDER = "openai"` from src/ai_cli/config.py. -/
def DEFAULT_PROVIDER : String := "openai"

/-- Python value `DEFAULT_MODEL` from src/ai_cli/config.py. -/
def DEFAULT_MODEL : String := "gpt-4.1-nano-2025-04-14"

/-- One entry of the `PROVIDER_CONFIG` dict: the per-provider descriptor
record of src/ai_cli/config.py (default model, environment-variable name,
keyring service and account). -/
structure ProviderDescriptor where
  default_model : String
  env_var : String
  keyring_service : String
  keyring_username : String
deriving DecidableEq, Repr

/-- The `PROVIDER_CONFIG` dict of src/ai_cli/config.py, as an association
list in literal order.  The source defines an entry for "openai" only. -/
def PROVIDER_CONFIG : List (String × ProviderDescriptor) :=
  [("openai",
    { default_model := "gpt-4.1-nano-2025-04-14"
      env_var := "OPENAI_API_KEY"
      keyring_service := "ai-cli-openai"
      keyring_username := "api-key" })]

/-- Legacy keyring service name `KEYRING_SERVICE` of src/ai_cli/config.py. -/
def KEYRING_SERVICE : String := "ai-cli"

/-- Legacy keyring account name `KEYRING_USERNAME` of src/ai_cli/config.py. -/
def KEYRING_USERNAME : String := "openai-api-key"

/-- Environment variable name `ENV_API_KEY` of src/ai_cli/config.py. -/
def ENV_API_KEY : String := "OPENAI_API_KEY"

/-- Python `str.lower()`, character by character (the source only lowers
ASCII provider names). -/
def pyLower (s : String) : String := String.mk (s.toList.map Char.toLower)

/-- Python `str.upper()`, character by character. -/
def pyUpper (s : String) : String := String.mk (s.toList.map Char.toUpper)

/-- Python `str.strip()`: removes leading and trailing whitespace. -/
def pyStrip (s : String) : String :=
  String.mk
    (((s.toList.dropWhile Char.isWhitespace).reverse.dropWhile Char.isWhitespace).reverse)

/-- The process environment: maps a variable name to its value, `none`
when the variable is unset (`os.getenv`). -/
def Env : Type := String → Option String

/-- `config.get_env_api_key`: `os.getenv(ENV_API_KEY)`. -/
def get_env_api_key (env : Env) : Option String := env ENV_API_KEY

/-- `config.get_provider_config`: dict lookup in `PROVIDER_CONFIG`,
raising `KeyError` (modelled as `Except.error` carrying the message) when
the provider has no entry. -/
def get_provider_config (provider_name : String) : Except String ProviderDescriptor :=
  match PROVIDER_CONFIG.lookup provider_name with
  | some c => .ok c
  | none => .error ("Provider '" ++ provider_name ++ "' not configured")

/-- `config.get_provider_env_api_key`: reads the provider descriptor's
environment variable; a `KeyError` from `get_provider_config` is caught and
turned into `None`. -/
def get_provider_env_api_key (env : Env) (provider_name : String) : Option String :=
  match get_provider_config provider_name with
  | .ok config => env config.env_var
  | .error _ => none

/-! ### The platform secret store (keyring) -/

/-- Result of one `keyring.get_password(service, account)` call:
the stored secret, absence (`None`), or a raised exception. -/
inductive KeyringLookup where
  | found (secret : String)
  | missing
  | failure
deriving DecidableEq, Repr

/-- The platform secret store as consulted by the code: a function from
service and account name to the lookup outcome. -/
def Keyring : Type := String → String → KeyringLookup

/-! ### api_key_manager.py -/

/-- `APIKeyManager.get_api_key`: keyring first (under the legacy
service/account), environment variable second.  A falsy keyring result
(absent, empty string) or a keyring exception falls through to the
environment. -/
def get_api_key (kr : Keyring) (env : Env) : Option String :=
  match kr KEYRING_SERVICE KEYRING_USERNAME with
  | .found api_key => if api_key ≠ "" then some api_key else get_env_api_key env
  | .missing => get_env_api_key env
  | .failure => get_env_api_key env

/-- `APIKeyManager.get_provider_api_key`: provider-specific keyring entry
first, then the provider's environment variable; an unconfigured provider
falls back to the legacy `get_api_key` when it is named "openai" and to
`None` otherwise. -/
def get_provider_api_key (kr : Keyring) (env : Env) (provider_name : String) :
    Option String :=
  match get_provider_config provider_name with
  | .error _ =>
    if pyLower provider_name = "openai" then get_api_key kr env else none
  | .ok config =>
    match kr config.keyring_service config.keyring_username with
    | .found api_key =>
      if api_key ≠ "" then some api_key else get_provider_env_api_key env provider_name
    | .missing => get_provider_env_api_key env provider_name
    | .failure => get_provider_env_api_key env provider_name

/-- `APIKeyManager.get_masked_key`: keys longer than 12 characters show the
first 8 and last 4 characters around an ellipsis (Python slices
`api_key[:8]` and `api_key[-4:]`); anything else is the constant mask. -/
def get_masked_key (api_key : String) : String :=
  if api_key.length > 12 then
    String.mk (api_key.toList.take 8) ++ "..." ++
      String.mk (api_key.toList.drop (api_key.toList.length - 4))
  else "***"

/-- Error kinds raised by the credential-resolution layer
(src/ai_cli/exceptions.py plus the uncaught Python `KeyError`). -/
inductive CredErr where
  | apiKeyNotFound (msg : String)
  | keyError (msg : String)
deriving DecidableEq, Repr

/-- `APIKeyManager.ensure_provider_api_key`: resolves via
`get_provider_api_key` and raises `APIKeyNotFoundError` when the result is
falsy (absent or the empty string); the message names `ai setup` and the
provider's environment variable (with an upper-cased fallback for
unconfigured providers). -/
def ensure_provider_api_key (kr : Keyring) (env : Env) (provider_name : String) :
    Except CredErr String :=
  let api_key := get_provider_api_key kr env provider_name
  match api_key with
  | some k =>
    if k ≠ "" then .ok k else .error (.apiKeyNotFound (no_key_message provider_name))
  | none => .error (.apiKeyNotFound (no_key_message provider_name))
where
  /-- The `APIKeyNotFoundError` message built at
  api_key_manager.py lines 254-263. -/
  no_key_message (provider_name : String) : String :=
    let env_var :=
      match get_provider_config provider_name with
      | .ok config => config.env_var
      | .error _ => pyUpper provider_name ++ "_API_KEY"
    "No " ++ provider_name ++ " API key configured. " ++
      "Run 'ai setup' to configure your API key, or set the " ++ env_var ++
      " environment variable."

/-! ### providers/factory.py -/

/-- The provider classes registered in `ProviderFactory._providers`
(src/ai_cli/providers/factory.py). -/
inductive ProviderClass where
  | openAIProvider
  | ollamaProvider
deriving DecidableEq, Repr

/-- The initial contents of the `ProviderFactory._providers` registry dict,
in literal order. -/
def factory_registry : List (String × ProviderClass) :=
  [("openai", .openAIProvider), ("ollama", .ollamaProvider)]

/-- `ProviderFactory.get_available_providers`: the registry's keys in
order. -/
def get_available_providers : List String := factory_registry.map Prod.fst

/-- Error raised by the factory (`UnsupportedProviderError`). -/
inductive FactoryErr where
  | unsupportedProvider (msg : String)
deriving DecidableEq, Repr

/-- The `UnsupportedProviderError` message built at factory.py
lines 54-59 and 80-85 (identical text in both methods). -/
def unsupported_message (lowered : String) : String :=
  "Unsupported provider '" ++ lowered ++ "'. Available providers: " ++
    String.intercalate ", " get_available_providers

/-- Credentials handed to a provider constructor: the opaque secret string
of the OpenAI provider or the settings dict of the Ollama provider. -/
inductive Credentials where
  | apiKey (key : String)
  | dict (settings : List (String × String))
deriving DecidableEq, Repr

/-- A provider instance as produced by the factory: the class plus the
credentials bound by the constructor. -/
structure ProviderInstance where
  cls : ProviderClass
  credentials : Credentials
deriving DecidableEq, Repr

/-- `ProviderFactory.get_provider_class`: lowercases the name, then looks
it up in the registry; a miss raises `UnsupportedProviderError` whose
message lists the available providers. -/
def get_provider_class (provider_name : String) : Except FactoryErr ProviderClass :=
  let lowered := pyLower provider_name
  match factory_registry.lookup lowered with
  | some cls => .ok cls
  | none => .error (.unsupportedProvider (unsupported_message lowered))

/-- `ProviderFactory.create_provider`: same lookup as
`get_provider_class`, then instantiates the class with the credentials. -/
def create_provider (provider_name : String) (credentials : Credentials) :
    Except FactoryErr ProviderInstance :=
  let lowered := pyLower provider_name
  match factory_registry.lookup lowered with
  | some cls => .ok { cls := cls, credentials := credentials }
  | none => .error (.unsupportedProvider (unsupported_message lowered))

/-! ### Substring containment (Python `in` on str) -/

/-- Whether `needle` is a prefix of `hay` (character lists). -/
def prefixAt : List Char → List Char → Bool
  | [], _ => true
  | _ :: _, [] => false
  | a :: as, b :: bs => a = b && prefixAt as bs

/-- Whether `needle` occurs contiguously anywhere in `hay`. -/
def hasSubstr (hay needle : List Char) : Bool :=
  match hay with
  | [] => prefixAt needle []
  | _ :: t => prefixAt needle hay || hasSubstr t needle

/-- Python `needle in hay` on strings. -/
def strHasSubstr (hay needle : String) : Bool := hasSubstr hay.toList needle.toList

/-! ### commands.py: QueryCommand._get_provider_credentials -/

/-- `QueryCommand._get_provider_credentials` of src/ai_cli/commands.py.
Parameters beyond the provider name are the ambient context: the secret
store, the environment, the `ollama` section of the settings file
(`ConfigManager.get_provider_config("ollama")`, empty list when absent),
and the external `json.loads` applied to the environment value (`none`
models `json.JSONDecodeError`, the only exception the method catches). -/
def get_provider_credentials (kr : Keyring) (env : Env)
    (file_config : List (String × String))
    (json_loads : String → Option (List (String × String)))
    (provider : String) : Except CredErr Credentials :=
  if pyLower provider = "openai" then
    (ensure_provider_api_key kr env provider).map .apiKey
  else if pyLower provider = "ollama" then
    match get_provider_config provider with
    | .error e => .error (.keyError e)
    | .ok config =>
      if file_config ≠ [] then .ok (.dict file_config)
      else
        match get_provider_env_api_key env provider with
        | some env_config =>
          if env_config ≠ "" then
            match json_loads env_config with
            | some d => .ok (.dict d)
            | none => .error (.apiKeyNotFound
                ("Invalid " ++ provider ++ " configuration format."))
          else .error (.apiKeyNotFound (no_config_message provider config))
        | none => .error (.apiKeyNotFound (no_config_message provider config))
  else
    (ensure_provider_api_key kr env provider).map .apiKey
where
  /-- The `APIKeyNotFoundError` message built at commands.py
  lines 576-579. -/
  no_config_message (provider : String) (config : ProviderDescriptor) : String :=
    "No " ++ provider ++ " configuration found. " ++
      "Run 'ai setup' to configure your provider, or set the " ++ config.env_var ++
      " environment variable."

/-! ### providers/ollama_provider.py -/

/-- Error kinds a provider method can raise: `APIKeyInvalidError`,
`OllamaAPIError`, `OpenAIAPIError`. -/
inductive ProviderErr where
  | apiKeyInvalid (msg : String)
  | ollamaAPIError (msg : String)
  | openAIAPIError (msg : String)
deriving DecidableEq, Repr

/-- Outcome of the one `requests.post` call a provider method makes.
`response` carries the HTTP status, the raw body text, and the result of
`response.json()`: `.error e` models `json.JSONDecodeError` (with `e` the
exception's rendering), `.ok fields` the parsed object's field names. -/
inductive HttpOutcome where
  | response (status : Nat) (text : String) (json : Except String (List String))
  | connectionError
  | timeout
deriving Repr

/-- `OllamaProvider.validate_credentials` (requests installed, so the
module-import guard passes).  `url` and `model` come from `config.get`, `none` or
the empty string being falsy; `outcome` is the test request's result. -/
def ollama_validate_credentials (url : Option String) (model : Option String)
    (outcome : HttpOutcome) : Except ProviderErr Unit :=
  if url.getD "" = "" then .error (.apiKeyInvalid "Ollama API URL is required")
  else if model.getD "" = "" then .error (.apiKeyInvalid "Ollama model is required")
  else
    match outcome with
    | .response status text json =>
      if status = 404 ∧ strHasSubstr (pyLower text) "model" then
        .error (.apiKeyInvalid ("Model '" ++ model.getD "" ++
          "' not found. Make sure it's installed in Ollama."))
      else if status ≠ 200 then
        .error (.ollamaAPIError ("Ollama API returned status " ++ toString status ++
          ": " ++ text))
      else
        match json with
        | .ok fields =>
          if "response" ∈ fields then .ok ()
          else .error (.ollamaAPIError "Invalid response format from Ollama API")
        | .error _ => .error (.ollamaAPIError "Invalid JSON response from Ollama API")
    | .connectionError =>
      .error (.apiKeyInvalid ("Could not connect to Ollama at " ++ url.getD "" ++
        ". Is Ollama running?"))
    | .timeout => .error (.ollamaAPIError "Request to Ollama timed out")

/-- Outcome of the generation request in `OllamaProvider.generate_command`:
on `response`, `json` is the result of `response.json()` and, when parsing
succeeded, carries `data.get("response", "")` — `none` when the parsed
object has no "response" field. -/
inductive GenOutcome where
  | response (status : Nat) (text : String) (json : Except String (Option String))
  | connectionError
  | timeout
deriving Repr

/-- `OllamaProvider.generate_command` (requests installed): status check,
JSON extraction of the "response" field, `strip`, and the empty-command
guard.  The re-raise logic at the end of the method leaves every
`OllamaAPIError` unchanged and wraps a `json.JSONDecodeError` as
`OllamaAPIError` with an "Error calling Ollama API" message. -/
def ollama_generate_command (url : Option String) (outcome : GenOutcome) :
    Except ProviderErr String :=
  match outcome with
  | .response status text json =>
    if status ≠ 200 then
      .error (.ollamaAPIError ("Ollama API returned status " ++ toString status ++
        ": " ++ text))
    else
      match json with
      | .ok field =>
        let command := pyStrip (field.getD "")
        if command = "" then
          .error (.ollamaAPIError "Empty command returned from Ollama API")
        else .ok command
      | .error e => .error (.ollamaAPIError ("Error calling Ollama API: " ++ e))
  | .connectionError =>
    .error (.ollamaAPIError ("Could not connect to Ollama at " ++ url.getD "" ++
      ". Is Ollama running?"))
  | .timeout => .error (.ollamaAPIError "Request to Ollama timed out")

/-! ### providers/openai_provider.py -/

/-- `OpenAIProvider.generate_command`, given the backend call's outcome:
`.ok command_line` is the parsed response's `command_line` field, `.error
e` a raised exception rendered as `e`.  The method strips the field,
raises `OpenAIAPIError` on an empty result, and its catch-all wraps every
exception (the empty-command error included) in an `OpenAIAPIError` whose
message embeds the original one. -/
def openai_generate_command (call : Except String String) : Except ProviderErr String :=
  match call with
  | .ok command_line =>
    let command := pyStrip command_line
    if command = "" then
      .error (.openAIAPIError
        "Error calling OpenAI API: Empty command returned from API")
    else .ok command
  | .error e => .error (.openAIAPIError ("Error calling OpenAI API: " ++ e))

/-! ### config_manager.py -/

/-- A TOML value as far as the settings file is concerned. -/
inductive TomlVal where
  | str (s : String)
  | int (n : Int)
  | boolean (b : Bool)
  | table (kvs : List (String × TomlVal))

/-- A configuration dictionary: the top-level TOML document. -/
def Config : Type := List (String × TomlVal)

/-- The state of the settings file on disk. -/
inductive FileState where
  | missing
  | unreadable
  | contents (text : String)

/-- The mutable state of one `ConfigManager` instance: the in-memory cache
(`self._config_cache`) and the file it manages. -/
structure ConfigManagerState where
  cache : Option Config
  file : FileState

/-- `ConfigManager.load_config`: returns the cache when warm; otherwise
reads the file, treating a missing, unreadable, or unparseable file as the
empty configuration, and fills the cache.  `toml_load` is the external
TOML parser, `none` modelling a parse exception. -/
def load_config (toml_load : String → Option Config) (st : ConfigManagerState) :
    Config × ConfigManagerState :=
  match st.cache with
  | some c => (c, st)
  | none =>
    let c :=
      match st.file with
      | .missing => []
      | .unreadable => []
      | .contents text =>
        match toml_load text with
        | some c => c
        | none => []
    (c, { st with cache := some c })

/-- `ConfigManager.save_config`: writes the dump of `config` to the file
and updates the cache to (a copy of) `config`; when the write fails
(`write_ok = false`) the exception propagates and the cache is untouched.
`toml_dump` is the external TOML serializer. -/
def save_config (toml_dump : Config → String) (write_ok : Bool)
    (_st : ConfigManagerState) (config : Config) :
    Except String ConfigManagerState :=
  if write_ok then
    .ok { cache := some config, file := .contents (toml_dump config) }
  else
    .error "Could not save configuration"

/-! ### Helper lemmas -/

/-- `String.toList` distributes over append. -/
theorem toList_append (a b : String) : (a ++ b).toList = a.toList ++ b.toList := rfl

/-- A substring of `y` is a substring of `x ++ y`. -/
theorem hasSubstr_append_right (x y n : List Char) (h : hasSubstr y n = true) :
    hasSubstr (x ++ y) n = true := by
  induction x with
  | nil => simpa using h
  | cons a t ih => simp [hasSubstr, ih]

/-- A substring of `b` is a substring of `a ++ b` (string version). -/
theorem strHasSubstr_append_right (a b p : String) (h : strHasSubstr b p = true) :
    strHasSubstr (a ++ b) p = true := by
  unfold strHasSubstr
  rw [toList_append]
  exact hasSubstr_append_right _ _ _ h

/-! ### Claim theorems -/

/-- C2: the claim that every provider identity registered in the factory
registry has exactly one descriptor entry in `PROVIDER_CONFIG` is violated
by the code: "ollama" is registered in `ProviderFactory._providers` but has
no entry at all in `PROVIDER_CONFIG` (while "openai" has exactly one).
This theorem evaluates the code at the failing identity. -/
theorem c2_ollama_has_no_descriptor :
    "ollama" ∈ get_available_providers
      ∧ PROVIDER_CONFIG.lookup "ollama" = none
      ∧ (PROVIDER_CONFIG.map Prod.fst).count "openai" = 1 := by
  decide

/-- C7: masking a secret longer than 12 characters keeps the first 8 and
the last 4 characters around an ellipsis; a secret of length at most 12 is
masked as the constant "***". -/
theorem c7_masked_key_shape (s : String) :
    (s.length > 12 →
      get_masked_key s =
        String.mk (s.toList.take 8) ++ "..." ++
          String.mk (s.toList.drop (s.toList.length - 4)))
    ∧ (s.length ≤ 12 → get_masked_key s = "***") := by
  constructor
  · intro h
    simp [get_masked_key, h]
  · intro h
    have h' : ¬ s.length > 12 := by omega
    simp [get_masked_key, h']

/-- C7 witness: both branches at the repository's own test inputs. -/
theorem c7_masked_key_shape_witness :
    (("sk-1234567890123456789012345678901234567890" : String).length > 12
      ∧ get_masked_key "sk-1234567890123456789012345678901234567890" =
          String.mk (("sk-1234567890123456789012345678901234567890" : String).toList.take 8)
            ++ "..." ++
            String.mk (("sk-1234567890123456789012345678901234567890" : String).toList.drop
              (("sk-1234567890123456789012345678901234567890" : String).toList.length - 4)))
    ∧ (("sk-123" : String).length ≤ 12 ∧ get_masked_key "sk-123" = "***") :=
  ⟨⟨by decide, (c7_masked_key_shape _).1 (by decide)⟩,
   ⟨by decide, (c7_masked_key_shape _).2 (by decide)⟩⟩

/-- C9: a secret store that yields the empty string for the consulted
service and account behaves exactly like a store with no entry: both
`get_api_key` and `get_provider_api_key` fall back to the environment
variable, and the empty stored secret is never the result. -/
theorem c9_empty_keyring_value_falls_back (kr : Keyring) (env : Env)
    (h1 : kr KEYRING_SERVICE KEYRING_USERNAME = .found "")
    (h2 : kr "ai-cli-openai" "api-key" = .found "") :
    get_api_key kr env = get_env_api_key env
      ∧ get_provider_api_key kr env "openai" = get_provider_env_api_key env "openai"
      ∧ get_api_key (fun _ _ => .missing) env = get_env_api_key env
      ∧ get_provider_api_key (fun _ _ => .missing) env "openai"
          = get_provider_env_api_key env "openai" := by
  refine ⟨?_, ?_, rfl, rfl⟩
  · unfold get_api_key
    rw [h1]
    simp
  · unfold get_provider_api_key
    have hc : get_provider_config "openai" =
        .ok { default_model := "gpt-4.1-nano-2025-04-14", env_var := "OPENAI_API_KEY",
              keyring_service := "ai-cli-openai", keyring_username := "api-key" } := rfl
    rw [hc]
    simp only
    rw [h2]
    simp

/-- C9 witness: a secret store constantly yielding the empty string. -/
theorem c9_empty_keyring_value_falls_back_witness :
    get_api_key (fun _ _ => .found "") (fun _ => some "env-key")
        = get_env_api_key (fun _ => some "env-key")
      ∧ get_provider_api_key (fun _ _ => .found "") (fun _ => some "env-key") "openai"
          = get_provider_env_api_key (fun _ => some "env-key") "openai"
      ∧ get_api_key (fun _ _ => .missing) (fun _ => some "env-key")
          = get_env_api_key (fun _ => some "env-key")
      ∧ get_provider_api_key (fun _ _ => .missing) (fun _ => some "env-key") "openai"
          = get_provider_env_api_key (fun _ => some "env-key") "openai" :=
  c9_empty_keyring_value_falls_back (fun _ _ => .found "") (fun _ => some "env-key") rfl rfl

/-- C10: `ConfigManager.load_config` on a fresh manager is total (the
model returns a configuration whatever the file state is) and yields the
empty configuration when the file is missing, unreadable, or not parseable
as TOML; a successfully parsed file yields the parsed configuration. -/
theorem c10_load_config_total_and_empty_on_bad_file
    (toml_load : String → Option Config) (text : String) :
    (load_config toml_load ⟨none, .missing⟩).1 = []
      ∧ (load_config toml_load ⟨none, .unreadable⟩).1 = []
      ∧ (toml_load text = none →
          (load_config toml_load ⟨none, .contents text⟩).1 = [])
      ∧ (∀ c, toml_load text = some c →
          (load_config toml_load ⟨none, .contents text⟩).1 = c) := by
  refine ⟨rfl, rfl, ?_, ?_⟩
  · intro h
    simp [load_config, h]
  · intro c h
    simp [load_config, h]

/-- C10 witness: a parser that rejects the corrupted text, and one that
accepts it. -/
theorem c10_load_config_total_and_empty_on_bad_file_witness :
    (load_config (fun _ => none) ⟨none, .contents "not [ valid toml"⟩).1 = []
      ∧ (load_config (fun _ => some [("general", .table [])])
          ⟨none, .contents "x"⟩).1 = [("general", .table [])] :=
  ⟨(c10_load_config_total_and_empty_on_bad_file (fun _ => none) "not [ valid toml").2.2.1 rfl,
   (c10_load_config_total_and_empty_on_bad_file (fun _ => some [("general", .table [])])
      "x").2.2.2 [("general", .table [])] rfl⟩

/-- C1: with an empty secret store, empty settings file, and empty
environment, query-time credential resolution for "openai" fails with
`APIKeyNotFoundError` whose message names the `ai setup` command and the
`OPENAI_API_KEY` environment variable, as the claim states — but for the
registered provider "ollama" it fails with an uncaught Python `KeyError`
("Provider 'ollama' not configured", from the missing `PROVIDER_CONFIG`
entry), not with `APIKeyNotFoundError`, so the claim is violated at that
provider. -/
theorem c1_credentials_not_found_outcomes :
    get_provider_credentials (fun _ _ => .missing) (fun _ => none) []
        (fun _ => none) "openai"
      = .error (.apiKeyNotFound
          ("No openai API key configured. Run 'ai setup' to configure your API key, " ++
            "or set the OPENAI_API_KEY environment variable."))
    ∧ get_provider_credentials (fun _ _ => .missing) (fun _ => none) []
        (fun _ => none) "ollama"
      = .error (.keyError "Provider 'ollama' not configured")
    ∧ get_provider_credentials (fun _ _ => .failure) (fun _ => none) []
        (fun _ => none) "openai"
      = .error (.apiKeyNotFound
          ("No openai API key configured. Run 'ai setup' to configure your API key, " ++
            "or set the OPENAI_API_KEY environment variable.")) := by
  refine ⟨?_, rfl, ?_⟩ <;> rfl

/-- C6: saving a configuration dictionary and then loading it back — on
one `ConfigManager` whose write succeeded — returns a dictionary equal to
the one saved, whatever its contents (selected provider, provider
sections, and untouched extra fields included). -/
theorem c6_save_then_load_round_trip
    (toml_load : String → Option Config) (toml_dump : Config → String)
    (st st' : ConfigManagerState) (c : Config)
    (h : save_config toml_dump true st c = .ok st') :
    (load_config toml_load st').1 = c := by
  unfold save_config at h
  simp only [if_pos] at h
  cases h
  rfl

/-- C6 witness: a configuration with a general section, a provider
section, and an extra unknown field round-trips through save and load. -/
theorem c6_save_then_load_round_trip_witness :
    (load_config (fun _ => none)
        ⟨some [("general", .table [("provider", .str "ollama")]),
               ("ollama", .table [("url", .str "http://localhost:11434/api/generate"),
                                  ("model", .str "llama2")]),
               ("extra", .str "untouched")],
          .contents ""⟩).1
      = [("general", .table [("provider", .str "ollama")]),
         ("ollama", .table [("url", .str "http://localhost:11434/api/generate"),
                            ("model", .str "llama2")]),
         ("extra", .str "untouched")] :=
  c6_save_then_load_round_trip (fun _ => none) (fun _ => "") ⟨none, .missing⟩ _ _ rfl

/-- C5: for both providers, a backend command that strips to the empty
string raises the provider's empty-result error kind and an `.ok` result
is never the empty string; on success the returned command is the
backend's string trimmed of surrounding whitespace, and the concrete
scenario body with response "du -sh ." yields exactly "du -sh .". -/
theorem c5_empty_command_and_trim (url text r : String) :
    (pyStrip r = "" →
      ollama_generate_command (some url) (.response 200 text (.ok (some r)))
          = .error (.ollamaAPIError "Empty command returned from Ollama API")
        ∧ openai_generate_command (.ok r)
          = .error (.openAIAPIError
              "Error calling OpenAI API: Empty command returned from API"))
    ∧ (pyStrip r ≠ "" →
      ollama_generate_command (some url) (.response 200 text (.ok (some r)))
          = .ok (pyStrip r)
        ∧ openai_generate_command (.ok r) = .ok (pyStrip r))
    ∧ (∀ (outcome : GenOutcome) (c : String),
        ollama_generate_command (some url) outcome = .ok c → c ≠ "")
    ∧ (∀ (call : Except String String) (c : String),
        openai_generate_command call = .ok c → c ≠ "")
    ∧ ollama_generate_command (some "http://localhost:11434/api/generate")
        (.response 200 "" (.ok (some "du -sh ."))) = .ok "du -sh ." := by
  refine ⟨?_, ?_, ?_, ?_, by rfl⟩
  · intro h
    constructor
    · simp [ollama_generate_command, h]
    · simp [openai_generate_command, h]
  · intro h
    constructor
    · simp [ollama_generate_command, h]
    · simp [openai_generate_command, h]
  · intro outcome c h
    cases outcome with
    | response status btext json =>
      simp only [ollama_generate_command] at h
      split at h
      · exact absurd h (by simp)
      · cases json with
        | ok field =>
          simp only at h
          split at h
          · exact absurd h (by simp)
          · rename_i hne
            simp only [Except.ok.injEq] at h
            subst h
            exact hne
        | error e => exact absurd h (by simp)
    | connectionError => exact absurd h (by simp [ollama_generate_command])
    | timeout => exact absurd h (by simp [ollama_generate_command])
  · intro call c h
    cases call with
    | ok cl =>
      simp only [openai_generate_command] at h
      split at h
      · exact absurd h (by simp)
      · rename_i hne
        simp only [Except.ok.injEq] at h
        subst h
        exact hne
    | error e => exact absurd h (by simp [openai_generate_command])

/-- C5 witness: the whitespace body of the repository's own unit test and
the "du -sh ." scenario, at concrete inputs. -/
theorem c5_empty_command_and_trim_witness :
    (pyStrip "   " = ""
      ∧ ollama_generate_command (some "http://localhost:11434/api/generate")
            (.response 200 "" (.ok (some "   ")))
          = .error (.ollamaAPIError "Empty command returned from Ollama API")
        ∧ openai_generate_command (.ok "   ")
          = .error (.openAIAPIError
              "Error calling OpenAI API: Empty command returned from API"))
    ∧ (pyStrip " du -sh . " ≠ ""
      ∧ ollama_generate_command (some "http://localhost:11434/api/generate")
            (.response 200 "" (.ok (some " du -sh . ")))
          = .ok (pyStrip " du -sh . ")
        ∧ openai_generate_command (.ok " du -sh . ") = .ok (pyStrip " du -sh . ")) :=
  ⟨⟨by decide,
    (c5_empty_command_and_trim "http://localhost:11434/api/generate" "" "   ").1 (by decide)⟩,
   ⟨by decide,
    (c5_empty_command_and_trim "http://localhost:11434/api/generate" "" " du -sh . ").2.1
      (by decide)⟩⟩

/-- C3: for the openai provider, a non-empty secret-store value under the
provider's service and account wins regardless of the environment; an
absent value or a failing store lookup falls back to the environment
variable; and with both sources empty, resolution reports the
absent-configuration kind (`APIKeyNotFoundError`). -/
theorem c3_openai_resolution_precedence (kr : Keyring) (env : Env) (v : String)
    (hv : v ≠ "") :
    (kr "ai-cli-openai" "api-key" = .found v →
      get_provider_api_key kr env "openai" = some v)
    ∧ (kr "ai-cli-openai" "api-key" = .missing →
      get_provider_api_key kr env "openai" = env "OPENAI_API_KEY")
    ∧ (kr "ai-cli-openai" "api-key" = .failure →
      get_provider_api_key kr env "openai" = env "OPENAI_API_KEY")
    ∧ (kr "ai-cli-openai" "api-key" = .missing → env "OPENAI_API_KEY" = none →
      ensure_provider_api_key kr env "openai"
        = .error (.apiKeyNotFound
            ("No openai API key configured. Run 'ai setup' to configure your " ++
              "API key, or set the OPENAI_API_KEY environment variable."))) := by
  have hc : get_provider_config "openai" =
      .ok { default_model := "gpt-4.1-nano-2025-04-14", env_var := "OPENAI_API_KEY",
            keyring_service := "ai-cli-openai", keyring_username := "api-key" } := rfl
  have hget : ∀ hk : KeyringLookup, kr "ai-cli-openai" "api-key" = hk →
      get_provider_api_key kr env "openai" =
        (match hk with
         | .found api_key =>
           if api_key ≠ "" then some api_key else env "OPENAI_API_KEY"
         | .missing => env "OPENAI_API_KEY"
         | .failure => env "OPENAI_API_KEY") := by
    intro hk h
    unfold get_provider_api_key
    rw [hc]
    simp only
    rw [h]
    cases hk <;> simp [get_provider_env_api_key, hc]
  refine ⟨?_, ?_, ?_, ?_⟩
  · intro h
    rw [hget _ h]
    simp [hv]
  · intro h
    exact hget _ h
  · intro h
    exact hget _ h
  · intro h henv
    unfold ensure_provider_api_key
    rw [hget _ h, henv]
    rfl

/-- C3 witness: concrete stores exercising all four branches. -/
theorem c3_openai_resolution_precedence_witness :
    (("sk-stored" : String) ≠ ""
      ∧ get_provider_api_key (fun _ _ => .found "sk-stored") (fun _ => some "sk-env")
          "openai" = some "sk-stored")
    ∧ get_provider_api_key (fun _ _ => .missing) (fun _ => some "sk-env") "openai"
        = (fun _ => some ("sk-env" : String)) "OPENAI_API_KEY"
    ∧ get_provider_api_key (fun _ _ => .failure) (fun _ => some "sk-env") "openai"
        = (fun _ => some ("sk-env" : String)) "OPENAI_API_KEY"
    ∧ ensure_provider_api_key (fun _ _ => .missing) (fun _ => none) "openai"
        = .error (.apiKeyNotFound
            ("No openai API key configured. Run 'ai setup' to configure your " ++
              "API key, or set the OPENAI_API_KEY environment variable.")) :=
  ⟨⟨by decide,
    (c3_openai_resolution_precedence (fun _ _ => .found "sk-stored")
      (fun _ => some "sk-env") "sk-stored" (by decide)).1 rfl⟩,
   (c3_openai_resolution_precedence (fun _ _ => .missing)
      (fun _ => some "sk-env") "x" (by decide)).2.1 rfl,
   (c3_openai_resolution_precedence (fun _ _ => .failure)
      (fun _ => some "sk-env") "x" (by decide)).2.2.1 rfl,
   (c3_openai_resolution_precedence (fun _ _ => .missing)
      (fun _ => none) "x" (by decide)).2.2.2 rfl rfl⟩

/-- C4: classification in the Ollama `validate_credentials`: a 404 whose
body mentions "model" and a connection failure both raise
`APIKeyInvalidError`; any other non-200 status, a non-JSON body, or a
parsed body without the "response" field raise `OllamaAPIError`, never
`APIKeyInvalidError`; a well-formed 200 response validates. -/
theorem c4_ollama_validate_classification (url model text : String) (status : Nat)
    (json : Except String (List String)) (hu : url ≠ "") (hm : model ≠ "") :
    ((status = 404 ∧ strHasSubstr (pyLower text) "model" = true) →
      ollama_validate_credentials (some url) (some model) (.response status text json)
        = .error (.apiKeyInvalid
            ("Model '" ++ model ++ "' not found. Make sure it's installed in Ollama.")))
    ∧ ollama_validate_credentials (some url) (some model) .connectionError
        = .error (.apiKeyInvalid
            ("Could not connect to Ollama at " ++ url ++ ". Is Ollama running?"))
    ∧ (¬(status = 404 ∧ strHasSubstr (pyLower text) "model" = true) → status ≠ 200 →
      ollama_validate_credentials (some url) (some model) (.response status text json)
        = .error (.ollamaAPIError
            ("Ollama API returned status " ++ toString status ++ ": " ++ text)))
    ∧ (∀ e, ollama_validate_credentials (some url) (some model)
          (.response 200 text (.error e))
        = .error (.ollamaAPIError "Invalid JSON response from Ollama API"))
    ∧ (∀ fields, "response" ∉ fields →
      ollama_validate_credentials (some url) (some model) (.response 200 text (.ok fields))
        = .error (.ollamaAPIError "Invalid response format from Ollama API"))
    ∧ (∀ fields, "response" ∈ fields →
      ollama_validate_credentials (some url) (some model) (.response 200 text (.ok fields))
        = .ok ()) := by
  refine ⟨?_, ?_, ?_, ?_, ?_, ?_⟩
  · intro h
    simp [ollama_validate_credentials, hu, hm, h]
  · simp [ollama_validate_credentials, hu, hm]
  · intro h hs
    simp [ollama_validate_credentials, hu, hm, h, hs]
  · intro e
    simp [ollama_validate_credentials, hu, hm]
  · intro fields hf
    simp [ollama_validate_credentials, hu, hm, hf]
  · intro fields hf
    simp [ollama_validate_credentials, hu, hm, hf]

/-- C4 witness: the spec's scenario (404 body mentioning the model), a
connection failure, a plain 500, a non-JSON 200, a 200 without the
"response" field, and a valid 200, at concrete inputs. -/
theorem c4_ollama_validate_classification_witness :
    (("http://localhost:11434/api/generate" : String) ≠ "" ∧ ("llama2" : String) ≠ "")
    ∧ ((404 = 404 ∧ strHasSubstr (pyLower "model 'llama2' not found") "model" = true)
      ∧ ollama_validate_credentials (some "http://localhost:11434/api/generate")
          (some "llama2")
          (.response 404 "model 'llama2' not found" (.error "not json"))
        = .error (.apiKeyInvalid
            ("Model '" ++ "llama2" ++ "' not found. Make sure it's installed in Ollama.")))
    ∧ ollama_validate_credentials (some "http://localhost:11434/api/generate")
        (some "llama2") .connectionError
      = .error (.apiKeyInvalid
          ("Could not connect to Ollama at " ++ "http://localhost:11434/api/generate" ++
            ". Is Ollama running?"))
    ∧ ollama_validate_credentials (some "http://localhost:11434/api/generate")
        (some "llama2") (.response 500 "boom" (.error "not json"))
      = .error (.ollamaAPIError
          ("Ollama API returned status " ++ toString (500 : Nat) ++ ": " ++ "boom"))
    ∧ ollama_validate_credentials (some "http://localhost:11434/api/generate")
        (some "llama2") (.response 200 "boom" (.error "not json"))
      = .error (.ollamaAPIError "Invalid JSON response from Ollama API")
    ∧ ollama_validate_credentials (some "http://localhost:11434/api/generate")
        (some "llama2") (.response 200 "" (.ok ["other"]))
      = .error (.ollamaAPIError "Invalid response format from Ollama API")
    ∧ ollama_validate_credentials (some "http://localhost:11434/api/generate")
        (some "llama2") (.response 200 "" (.ok ["response"]))
      = .ok () := by
  have base := c4_ollama_validate_classification "http://localhost:11434/api/generate"
    "llama2" "model 'llama2' not found" 404 (.error "not json") (by decide) (by decide)
  have base500 := c4_ollama_validate_classification "http://localhost:11434/api/generate"
    "llama2" "boom" 500 (.error "not json") (by decide) (by decide)
  refine ⟨⟨by decide, by decide⟩, ⟨⟨rfl, by decide⟩, ?_⟩, ?_, ?_, ?_, ?_, ?_⟩
  · exact base.1 ⟨rfl, by decide⟩
  · exact base.2.1
  · exact base500.2.2.1 (by decide) (by decide)
  · exact base500.2.2.2.1 "not json"
  · exact base500.2.2.2.2.1 ["other"] (by decide)
  · exact base500.2.2.2.2.2 ["response"] (by decide)

/-- C8: a name whose lowercase form is not registered makes both
`create_provider` and `get_provider_class` fail with
`UnsupportedProviderError`, and the error's message contains every
registered provider identity as a substring. -/
theorem c8_unsupported_provider_lists_identities (name : String) (creds : Credentials)
    (h : pyLower name ∉ get_available_providers) :
    create_provider name creds
        = .error (.unsupportedProvider (unsupported_message (pyLower name)))
      ∧ get_provider_class name
        = .error (.unsupportedProvider (unsupported_message (pyLower name)))
      ∧ ∀ p ∈ get_available_providers,
          strHasSubstr (unsupported_message (pyLower name)) p = true := by
  have h1 : pyLower name ≠ "openai" := fun hx => h (by rw [hx]; decide)
  have h2 : pyLower name ≠ "ollama" := fun hx => h (by rw [hx]; decide)
  have b1 : (pyLower name == "openai") = false := beq_eq_false_iff_ne.mpr h1
  have b2 : (pyLower name == "ollama") = false := beq_eq_false_iff_ne.mpr h2
  have hl : factory_registry.lookup (pyLower name) = none := by
    simp [factory_registry, List.lookup, b1, b2]
  refine ⟨?_, ?_, ?_⟩
  · simp [create_provider, hl]
  · simp [get_provider_class, hl]
  · intro p hp
    have hmsg : unsupported_message (pyLower name) =
        ("Unsupported provider '" ++ pyLower name ++ "'. Available providers: ") ++
          "openai, ollama" := rfl
    rw [hmsg]
    apply strHasSubstr_append_right
    have hp' : p = "openai" ∨ p = "ollama" := by
      simpa [get_available_providers, factory_registry] using hp
    rcases hp' with hp' | hp' <;> rw [hp'] <;> decide

/-- C8 witness: the unregistered name "Unsupported". -/
theorem c8_unsupported_provider_lists_identities_witness :
    pyLower "Unsupported" ∉ get_available_providers
      ∧ (create_provider "Unsupported" (.apiKey "sk-test")
          = .error (.unsupportedProvider (unsupported_message (pyLower "Unsupported")))
        ∧ get_provider_class "Unsupported"
          = .error (.unsupportedProvider (unsupported_message (pyLower "Unsupported")))
        ∧ ∀ p ∈ get_available_providers,
            strHasSubstr (unsupported_message (pyLower "Unsupported")) p = true) :=
  ⟨by decide,
   c8_unsupported_provider_lists_identities "Unsupported" (.apiKey "sk-test") (by decide)⟩

end AiCli
